import Mathlib

/-!
# Verification of the jax_validation chain core

This development is a shallow embedding of `src/src/validation/validator.py`,
the live implementation of the validation-chain core (it is the module the
test suite imports; the draft `src/src/validation/core.py` contains a Python
syntax error — an empty `def __init__` body around line 1031 — and therefore
cannot be imported at all).

The embedding covers:

* the interning constructor protocol (`Validator.__new__`, the patched
  `__init__` installed by `__init_subclass__`, and the module-level
  `_validator_cache`),
* the structural fingerprint `Validator._create_hash` (modelled as an
  injective structural key, as the code intends),
* the chain algebra (`append`, `walk`, `__and__`),
* the execution engine (`_validate`, `_passed_branch`, `_base_case_passed`,
  `_base_case_failed`, `_execute_predicate`, `_execute_chain_predicate`,
  `_execute_create_exception`, `_execute_handle`, `__call__`), with an
  explicit event trace recording which subclass behaviors were invoked and
  with which values, and
* the sink registry of `src/src/validation/state.py`
  (`set_exception_callback` / `set_success_callback`).

Machine integers do not occur on the relevant paths; Python objects passed as
constructor arguments are modelled by a small leaf datatype carrying a
hashability flag, and Python `hash` equality is modelled as structural
equality of the fingerprint (the code's intent per the `_create_hash`
docstring).
-/

/-! ## Constructor arguments

`Validator.__new__` flattens `(args, kwargs)` with `jax.tree_util.tree_flatten`
into a list of leaves plus a treedef.  We model the canonical result: an opaque
treedef descriptor together with the ordered leaf list.  A leaf is a hashable
Python scalar or an arbitrary object which may or may not be hashable. -/

/-- A leaf of the flattened constructor-argument pytree.  `obj id h` stands for
an arbitrary Python object with identity `id` whose hashability is `h`. -/
inductive PyLeaf where
  | int (n : Int)
  | str (s : String)
  | bool (b : Bool)
  | noneVal
  | obj (id : Nat) (hashable : Bool)
deriving DecidableEq, Repr

/-- Whether `hash(leaf)` succeeds in Python. Scalars always hash; an `obj`
hashes according to its flag. -/
def PyLeaf.isHashable : PyLeaf → Bool
  | .obj _ h => h
  | _ => true

/-- The canonicalized constructor arguments of one node: the result of
`tree_util.tree_flatten((args, kwargs))` in `Validator.__new__` — a treedef
descriptor plus the ordered leaves. -/
structure CArgs where
  treedef : String
  leaves : List PyLeaf
deriving DecidableEq, Repr

/-- All leaves hashable, i.e. `hash(tuple(constructor_leaves))` succeeds. -/
def CArgs.hashable (a : CArgs) : Bool := a.leaves.all PyLeaf.isHashable

/-! ## Chains and fingerprints

A validator chain is a node (class identity + canonical constructor
arguments) linked to an optional continuation.  `Validator._create_hash`
hashes `(treedef, leaves, class id, hash(next_validator))`; since
`hash(next_validator)` is the continuation's own `_create_hash` value, the
fingerprint is determined by exactly this structure.  We model the fingerprint
injectively as the structure itself. -/

/-- The structure of a validator chain: each link carries the unique class
identifier (`_get_unique_class_identifier`) and the canonicalized constructor
arguments; `last` has `next_validator is None`. -/
inductive CChain where
  | last (cls : String) (args : CArgs)
  | cons (cls : String) (args : CArgs) (next : CChain)
deriving DecidableEq, Repr

/-- Errors that can escape node construction.  `typeError` is the bare Python
`TypeError` thrown by `hash()` on an unhashable leaf inside `_create_hash`
(the function has no `try`/`except`); `validatorException` is the dedicated
wrapped construction error that the dead draft `core.py:_create_hash` would
raise instead (`create_initialization_exception`), kept here so that the two
error kinds can be told apart in statements. -/
inductive BuildErr where
  | typeError
  | validatorException (task : String)
deriving DecidableEq, Repr

/-- Is this the bare Python `TypeError` rather than a dedicated
construction-error kind? -/
def BuildErr.isBareTypeError : BuildErr → Bool
  | .typeError => true
  | .validatorException _ => false

/-- `Validator._create_hash(constructor_treedef, constructor_leaves,
next_validator)` in `validator.py`: hashes the tuple
`(treedef, tuple(leaves), class id, hash(next))`.  With no `try`/`except`
around it, an unhashable leaf makes `hash` raise a bare `TypeError`.  On
success the fingerprint determines (and is modelled as) the chain structure. -/
def createHash (cls : String) (args : CArgs) (next : Option CChain) :
    Except BuildErr CChain :=
  if args.hashable then
    match next with
    | Option.none => Except.ok (CChain.last cls args)
    | Option.some n => Except.ok (CChain.cons cls args n)
  else Except.error BuildErr.typeError

/-! ## The interning constructor protocol

`_validator_cache` is a module-level dict from fingerprint to instance.  We
model instances by allocation identifiers (`Nat`): two construction results
denote the reference-identical Python object exactly when their identifiers
are equal.  The state also counts how many times a subclass `__init__` body
has executed, because Python's call protocol (`type.__call__`) invokes
`cls.__init__` on whatever instance `cls.__new__` returned — on cache hits as
well as on misses.  The patched `__init__` installed by `__init_subclass__`
merely strips `_next_validator` and then runs the user's constructor body. -/

/-- The process-wide construction state: the interning cache
(`_validator_cache`, fingerprint to instance id), the next fresh instance id,
and the number of times a user `__init__` body has run. -/
structure InternState where
  cache : List (CChain × Nat)
  nextId : Nat
  initRuns : Nat
deriving DecidableEq, Repr

/-- Fingerprint lookup in `_validator_cache`. -/
def lookupCache (fp : CChain) : List (CChain × Nat) → Option Nat
  | [] => Option.none
  | (k, i) :: rest => if k = fp then Option.some i else lookupCache fp rest

/-- `Validator.__new__(cls, *args, _next_validator=next, **kwargs)`:
computes the fingerprint (propagating the bare `TypeError` of `_create_hash`
on unhashable leaves), returns the cached instance on a hit, and otherwise
allocates, stores fields, caches and returns a fresh instance. -/
def validatorNew (cls : String) (args : CArgs) (next : Option CChain)
    (st : InternState) : Except BuildErr (Nat × InternState) :=
  match createHash cls args next with
  | Except.error e => Except.error e
  | Except.ok fp =>
    match lookupCache fp st.cache with
    | Option.some i => Except.ok (i, st)
    | Option.none =>
      Except.ok (st.nextId,
        { cache := (fp, st.nextId) :: st.cache,
          nextId := st.nextId + 1,
          initRuns := st.initRuns })

/-- A full Python construction call `cls(*args, _next_validator=next,
**kwargs)`: `type.__call__` runs `__new__` and then, since the returned
object is an instance of `cls`, invokes the (patched) `__init__` on it —
this happens on every call, cache hit or miss, so the user constructor body
runs once per call. -/
def constructCall (cls : String) (args : CArgs) (next : Option CChain)
    (st : InternState) : Except BuildErr (Nat × InternState) :=
  match validatorNew cls args next st with
  | Except.error e => Except.error e
  | Except.ok (i, st1) =>
    Except.ok (i, { st1 with initRuns := st1.initRuns + 1 })

/-- `k` successive construction calls with identical class, arguments and
continuation; returns the list of instance ids the calls produced (in call
order) and the final state. -/
def constructTimes (cls : String) (args : CArgs) (next : Option CChain) :
    Nat → InternState → Except BuildErr (List Nat × InternState)
  | 0, st => Except.ok ([], st)
  | k + 1, st =>
    match constructCall cls args next st with
    | Except.error e => Except.error e
    | Except.ok (i, st1) =>
      match constructTimes cls args next k st1 with
      | Except.error e => Except.error e
      | Except.ok (ids, st2) => Except.ok (i :: ids, st2)

/-- The instance id the first construction call returns from state `st`:
the cached id on a hit, the fresh id on a miss. -/
def firstId (cls : String) (args : CArgs) (next : Option CChain)
    (st : InternState) : Nat :=
  match createHash cls args next with
  | Except.error _ => 0
  | Except.ok fp =>
    match lookupCache fp st.cache with
    | Option.some i => i
    | Option.none => st.nextId

/-! ## Chain algebra

`Validator.append` rebuilds the receiver's spine with the new tail attached
(`self.__class__(*args, _next_validator=rebuilt_next, **kwargs)`), and
`Validator.walk(f)` yields `f(node)` for each node from head to tail.
`__and__` is `append`.  Interning affects only object identity, never the
resulting structure, so the algebra is stated on `CChain`. -/

/-- `Validator.append`: if there is a continuation, append into it
recursively; otherwise the appended chain becomes the continuation; either
way the receiver is reconstructed with its own class and arguments. -/
def CChain.append : CChain → CChain → CChain
  | .last c a, v => .cons c a v
  | .cons c a n, v => .cons c a (n.append v)

/-- `Validator.__and__(other)` is `self.append(other)`. -/
def CChain.chainAnd (a b : CChain) : CChain := a.append b

/-- `Validator.walk(f)`: the list of `f` applied to each node's class and
arguments, head to tail. -/
def CChain.walk (f : String → CArgs → α) : CChain → List α
  | .last c a => [f c a]
  | .cons c a n => f c a :: n.walk f

/-- The ordered sequence of node type-tags (concrete class identities) seen
when walking a chain. -/
def CChain.typeTags (c : CChain) : List String := c.walk (fun cls _ => cls)

/-! ## The execution engine

`Validator._validate` and its helpers, embedded with an explicit event trace.
Operands are opaque to the engine; we fix `Operand := Int` (the engine never
inspects them).  The context is the `**kwargs` map of string keys.  A user
behavior either returns a Python value or raises (`Except String PyVal`, the
`String` describing the raised exception).  User exception objects are
modelled by `Nat` identifiers so that handler-to-handler data flow is
visible. -/

/-- The operand type: opaque to the engine. -/
abbrev Operand := Int

/-- The `**kwargs` context map supplied at call time. -/
abbrev Ctx := List (String × PyLeaf)

/-- Python-side lookup of a keyword in the context. -/
def ctxLookup (k : String) : Ctx → Option PyLeaf
  | [] => Option.none
  | (k1, v) :: rest => if k1 = k then Option.some v else ctxLookup k rest

/-- A dynamically-typed value a subclass behavior can return. -/
inductive PyVal where
  | bool (b : Bool)
  | int (n : Int)
  | exc (e : Nat)
  | noneVal
deriving DecidableEq, Repr

/-- `type(observed)` as it appears in `SubclassReturnedWrongTypeException`'s
message. -/
def PyVal.kind : PyVal → String
  | .bool _ => "bool"
  | .int _ => "int"
  | .exc _ => "Exception"
  | .noneVal => "NoneType"

/-- The result of calling one user behavior: a value, or a raised exception
described by a string. -/
abbrev PyResult := Except String PyVal

/-- One validator node's user-supplied behaviors plus its class identity.
These are the four overridable methods of `Validator`. -/
structure NodeBehavior where
  cls : String
  predicate : Operand → Ctx → PyResult
  create_exception : Operand → Ctx → PyResult
  chain_predicate : Ctx → PyResult
  handle_exception : Nat → Ctx → PyResult

/-- A chain of behavioral nodes (head first), mirroring the `next_validator`
linked list. -/
inductive BChain where
  | last (n : NodeBehavior)
  | cons (n : NodeBehavior) (next : BChain)

/-- The head node of a behavior chain. -/
def BChain.head : BChain → NodeBehavior
  | .last n => n
  | .cons n _ => n

/-- The nodes of a behavior chain, head to tail. -/
def BChain.nodes : BChain → List NodeBehavior
  | .last n => [n]
  | .cons n next => n :: next.nodes

/-- The engine's own errors: the `ValidatorException` family of
`validator.py`.  `didNotRun` is `SubclassDidNotRunException` (the blanket
`except Exception` in each `_execute_*` helper); `wrongType` is
`SubclassReturnedWrongTypeException`.  Both carry the offending node's class
and the behavior name. -/
inductive VErr where
  | didNotRun (cls feature : String)
  | wrongType (cls feature required observed : String)
deriving DecidableEq, Repr

/-- Observable events of one execution, in order.  `predicateCalled`,
`chainPredicateCalled`, `createExceptionCalled` and `handleCalled` mark the
engine invoking the corresponding user behavior; `handleCalled` also records
the exception value the handler received.  `rootCallbackCalled` marks the
invocation of the hard-coded root callback `lambda exception, **k: None`
that `Validator.__call__` installs, with the final exception value it
received.  `basePassed` marks `_base_case_passed` (its debug print).
`exceptionSinkCalled` / `successSinkCalled` would mark an invocation of a
sink registered through `state.py`; they exist so that statements about sink
routing can be made. -/
inductive Event where
  | predicateCalled (cls : String) (operand : Operand)
  | chainPredicateCalled (cls : String)
  | createExceptionCalled (cls : String)
  | handleCalled (cls : String) (received : Nat)
  | rootCallbackCalled (final : Nat)
  | basePassed (operand : Operand)
  | exceptionSinkCalled (final : Nat)
  | successSinkCalled (operand : Operand)
deriving DecidableEq, Repr

/-- An exception callback as threaded through `_validate`: takes the
exception value and the context, produces the events of its execution and
either returns or raises a `VErr`. -/
abbrev Callback := Nat → Ctx → List Event × Except VErr Unit

/-- The root callback `lambda exception, **k: None` that
`Validator.__call__` passes as the initial `callback`. -/
def rootCallback : Callback :=
  fun e _ => ([Event.rootCallbackCalled e], Except.ok ())

/-- `Validator._execute_predicate`: runs the user predicate; any raise
becomes `SubclassDidNotRunException(self, 'predicate')`; a non-`bool` return
becomes `SubclassReturnedWrongTypeException(self, 'predicate', 'bool',
observed)`. -/
def executePredicate (n : NodeBehavior) (x : Operand) (ctx : Ctx) :
    Except VErr Bool :=
  match n.predicate x ctx with
  | Except.error _ => Except.error (VErr.didNotRun n.cls "predicate")
  | Except.ok (PyVal.bool b) => Except.ok b
  | Except.ok v => Except.error (VErr.wrongType n.cls "predicate" "bool" v.kind)

/-- `Validator._execute_chain_predicate`: same contract checks for
`chain_predicate`. -/
def executeChainPredicate (n : NodeBehavior) (ctx : Ctx) : Except VErr Bool :=
  match n.chain_predicate ctx with
  | Except.error _ => Except.error (VErr.didNotRun n.cls "chain_predicate")
  | Except.ok (PyVal.bool b) => Except.ok b
  | Except.ok v =>
    Except.error (VErr.wrongType n.cls "chain_predicate" "bool" v.kind)

/-- `Validator._execute_create_exception`: the failure factory must return an
`Exception` value. -/
def executeCreateException (n : NodeBehavior) (x : Operand) (ctx : Ctx) :
    Except VErr Nat :=
  match n.create_exception x ctx with
  | Except.error _ => Except.error (VErr.didNotRun n.cls "create_exception")
  | Except.ok (PyVal.exc e) => Except.ok e
  | Except.ok v =>
    Except.error (VErr.wrongType n.cls "create_exception" "Exception" v.kind)

/-- `Validator._execute_handle`: the failure handler must return an
`Exception` value. -/
def executeHandle (n : NodeBehavior) (e : Nat) (ctx : Ctx) :
    Except VErr Nat :=
  match n.handle_exception e ctx with
  | Except.error _ => Except.error (VErr.didNotRun n.cls "handle_exception")
  | Except.ok (PyVal.exc e1) => Except.ok e1
  | Except.ok v =>
    Except.error (VErr.wrongType n.cls "handle_exception" "Exception" v.kind)

/-- The `exception_callback_wrapper` closure built inside `_validate`: runs
this node's `handle_exception` (through `_execute_handle`) on the incoming
exception, then passes the result to the enclosing callback. -/
def wrapCallback (n : NodeBehavior) (cb : Callback) : Callback :=
  fun e ctx =>
    match executeHandle n e ctx with
    | Except.error verr => ([Event.handleCalled n.cls e], Except.error verr)
    | Except.ok e1 =>
      let r := cb e1 ctx
      (Event.handleCalled n.cls e :: r.1, r.2)

/-- `Validator._base_case_failed` together with
`_execute_exception_callback`: builds the node's exception via
`_execute_create_exception`, feeds it to the accumulated callback (through
`jax.experimental.io_callback`), and returns the operand. -/
def baseCaseFailed (n : NodeBehavior) (cb : Callback) (x : Operand)
    (ctx : Ctx) : List Event × Except VErr Operand :=
  match executeCreateException n x ctx with
  | Except.error verr => ([Event.createExceptionCalled n.cls], Except.error verr)
  | Except.ok e0 =>
    let r := cb e0 ctx
    match r.2 with
    | Except.error verr =>
      (Event.createExceptionCalled n.cls :: r.1, Except.error verr)
    | Except.ok _ =>
      (Event.createExceptionCalled n.cls :: r.1, Except.ok x)

/-- `Validator._validate` as written in `validator.py`: build the wrapper,
run `_execute_predicate`, and branch on the result.  On the passed branch,
`_passed_branch` returns `self.next_validator._validate(callback, operand,
**kwargs)` at line 766 *before* its chain-predicate logic — the
`_execute_chain_predicate` / `jax.lax.cond` code at lines 767–774 is
unreachable — so when a continuation exists it is always entered; only a
missing continuation reaches `_base_case_passed`. -/
def validateChain : BChain → Callback → Operand → Ctx →
    List Event × Except VErr Operand
  | .last n, cb, x, ctx =>
    let cbw := wrapCallback n cb
    match executePredicate n x ctx with
    | Except.error verr => ([Event.predicateCalled n.cls x], Except.error verr)
    | Except.ok true =>
      ([Event.predicateCalled n.cls x, Event.basePassed x], Except.ok x)
    | Except.ok false =>
      let r := baseCaseFailed n cbw x ctx
      (Event.predicateCalled n.cls x :: r.1, r.2)
  | .cons n next, cb, x, ctx =>
    let cbw := wrapCallback n cb
    match executePredicate n x ctx with
    | Except.error verr => ([Event.predicateCalled n.cls x], Except.error verr)
    | Except.ok true =>
      let r := validateChain next cbw x ctx
      (Event.predicateCalled n.cls x :: r.1, r.2)
    | Except.ok false =>
      let r := baseCaseFailed n cbw x ctx
      (Event.predicateCalled n.cls x :: r.1, r.2)

/-- `Validator.__call__(operand, **kwargs)`: starts `_validate` with the
hard-coded root callback `lambda exception, **k: None`.  It reads nothing
from `state.py` — hence this function takes no sink-registry argument. -/
def validatorCall (c : BChain) (x : Operand) (ctx : Ctx) :
    List Event × Except VErr Operand :=
  validateChain c rootCallback x ctx

/-- The passed branch as the unreachable code at `validator.py` lines
767–774 (and the class docstring, and `core.py:_passed_branch`) intends it:
after a node passes and a continuation exists, `_execute_chain_predicate`
decides between entering the continuation and stopping at
`_base_case_passed`. -/
def validateIntended : BChain → Callback → Operand → Ctx →
    List Event × Except VErr Operand
  | .last n, cb, x, ctx =>
    let cbw := wrapCallback n cb
    match executePredicate n x ctx with
    | Except.error verr => ([Event.predicateCalled n.cls x], Except.error verr)
    | Except.ok true =>
      ([Event.predicateCalled n.cls x, Event.basePassed x], Except.ok x)
    | Except.ok false =>
      let r := baseCaseFailed n cbw x ctx
      (Event.predicateCalled n.cls x :: r.1, r.2)
  | .cons n next, cb, x, ctx =>
    let cbw := wrapCallback n cb
    match executePredicate n x ctx with
    | Except.error verr => ([Event.predicateCalled n.cls x], Except.error verr)
    | Except.ok true =>
      match executeChainPredicate n ctx with
      | Except.error verr =>
        ([Event.predicateCalled n.cls x, Event.chainPredicateCalled n.cls],
          Except.error verr)
      | Except.ok true =>
        let r := validateIntended next cbw x ctx
        (Event.predicateCalled n.cls x :: Event.chainPredicateCalled n.cls
          :: r.1, r.2)
      | Except.ok false =>
        ([Event.predicateCalled n.cls x, Event.chainPredicateCalled n.cls,
          Event.basePassed x], Except.ok x)
    | Except.ok false =>
      let r := baseCaseFailed n cbw x ctx
      (Event.predicateCalled n.cls x :: r.1, r.2)

/-- `validateIntended` started like `__call__`. -/
def validatorCallIntended (c : BChain) (x : Operand) (ctx : Ctx) :
    List Event × Except VErr Operand :=
  validateIntended c rootCallback x ctx

/-! ## The sink registry of `state.py`

`StateData` holds the process-wide `final_callback` and `success_callback`;
`set_exception_callback` / `set_success_callback` assign them.  A sink is
modelled by the events its host side effects would emit when invoked. -/

/-- An exception sink `(error, **kwargs) -> side effect`. -/
abbrev ExceptionSink := Nat → Ctx → List Event

/-- A success sink `(operand, **kwargs) -> side effect`. -/
abbrev SuccessSink := Operand → Ctx → List Event

/-- `state.StateData` (the callback-relevant fields). -/
structure StateData where
  final_callback : Option ExceptionSink
  success_callback : Option SuccessSink

/-- Fresh `state.state`: both callbacks unset. -/
def initialStateData : StateData := ⟨Option.none, Option.none⟩

/-- `state.set_exception_callback`. -/
def setExceptionCallback (cb : Option ExceptionSink) (s : StateData) :
    StateData :=
  { s with final_callback := cb }

/-- `state.set_success_callback`. -/
def setSuccessCallback (cb : Option SuccessSink) (s : StateData) :
    StateData :=
  { s with success_callback := cb }

/-- `state.get_exception_callback`. -/
def getExceptionCallback (s : StateData) : Option ExceptionSink :=
  s.final_callback

/-- `state.get_success_callback`. -/
def getSuccessCallback (s : StateData) : Option SuccessSink :=
  s.success_callback

/-! ## Supporting lemmas: interning -/

/-- The fingerprint `_create_hash` computes when all leaves hash. -/
def fpOf (cls : String) (args : CArgs) (next : Option CChain) : CChain :=
  match next with
  | Option.none => CChain.last cls args
  | Option.some n => CChain.cons cls args n

/-- The ids of a run of construction calls, forgetting states and collapsing
errors. -/
def idsOf : Except BuildErr (List Nat × InternState) → Option (List Nat)
  | Except.error _ => Option.none
  | Except.ok (ids, _) => Option.some ids

theorem createHash_ok (cls : String) (args : CArgs) (next : Option CChain)
    (h : args.hashable = true) :
    createHash cls args next = Except.ok (fpOf cls args next) := by
  cases next <;> simp [createHash, fpOf, h]

theorem constructCall_hit (cls : String) (args : CArgs) (next : Option CChain)
    (st : InternState) (i : Nat) (h : args.hashable = true)
    (hl : lookupCache (fpOf cls args next) st.cache = Option.some i) :
    constructCall cls args next st =
      Except.ok (i, { st with initRuns := st.initRuns + 1 }) := by
  simp [constructCall, validatorNew, createHash_ok cls args next h, hl]

theorem constructCall_miss (cls : String) (args : CArgs) (next : Option CChain)
    (st : InternState) (h : args.hashable = true)
    (hl : lookupCache (fpOf cls args next) st.cache = Option.none) :
    constructCall cls args next st =
      Except.ok (st.nextId,
        { cache := (fpOf cls args next, st.nextId) :: st.cache,
          nextId := st.nextId + 1,
          initRuns := st.initRuns + 1 }) := by
  simp [constructCall, validatorNew, createHash_ok cls args next h, hl]

theorem lookupCache_self (fp : CChain) (i : Nat) (rest : List (CChain × Nat)) :
    lookupCache fp ((fp, i) :: rest) = Option.some i := by
  simp [lookupCache]

/-- Once the fingerprint is cached with id `i`, any number of further
identical construction calls all return `i` and leave the cache untouched. -/
theorem constructTimes_hit (cls : String) (args : CArgs) (next : Option CChain)
    (h : args.hashable = true) :
    ∀ (k : Nat) (st : InternState) (i : Nat),
      lookupCache (fpOf cls args next) st.cache = Option.some i →
      idsOf (constructTimes cls args next k st) =
        Option.some (List.replicate k i) := by
  intro k
  induction k with
  | zero => intro st i _; simp [constructTimes, idsOf]
  | succ k ih =>
    intro st i hl
    have hcall := constructCall_hit cls args next st i h hl
    have hih := ih { st with initRuns := st.initRuns + 1 } i hl
    simp only [constructTimes, hcall]
    obtain ⟨ids, st2, hrec⟩ :
        ∃ ids st2, constructTimes cls args next k
          { st with initRuns := st.initRuns + 1 } = Except.ok (ids, st2) := by
      cases hrec : constructTimes cls args next k
          { st with initRuns := st.initRuns + 1 } with
      | error e => rw [hrec] at hih; simp [idsOf] at hih
      | ok p => exact ⟨p.1, p.2, rfl⟩
    rw [hrec] at hih ⊢
    simp [idsOf] at hih
    simp [idsOf, hih, List.replicate_succ]

/-! ## C1 — interning identity -/

/-- C1.  Interning identity: for every validator subclass (class identifier
`cls`), every pytree of hashable constructor arguments `args`, and every
continuation `next` (an existing chain or `None`), from any starting cache
state every one of `k + 1` repeated construction calls
`cls(*args, _next_validator=next, **kwargs)` returns the same instance — the
very instance the first call produced (`firstId`), so the second and all
later calls return the object cached by the first call. -/
theorem interning_identity (cls : String) (args : CArgs)
    (next : Option CChain) (st : InternState) (k : Nat)
    (h : args.hashable = true) :
    idsOf (constructTimes cls args next (k + 1) st) =
      Option.some (List.replicate (k + 1) (firstId cls args next st)) := by
  have hfp := createHash_ok cls args next h
  cases hl : lookupCache (fpOf cls args next) st.cache with
  | some i =>
    have : firstId cls args next st = i := by
      simp [firstId, hfp, hl]
    rw [this]
    exact constructTimes_hit cls args next h (k + 1) st i hl
  | none =>
    have hfid : firstId cls args next st = st.nextId := by
      simp [firstId, hfp, hl]
    have hcall := constructCall_miss cls args next st h hl
    have hlook : lookupCache (fpOf cls args next)
        ((fpOf cls args next, st.nextId) :: st.cache) = Option.some st.nextId :=
      lookupCache_self _ _ _
    have hrest := constructTimes_hit cls args next h k
      { cache := (fpOf cls args next, st.nextId) :: st.cache,
        nextId := st.nextId + 1,
        initRuns := st.initRuns + 1 } st.nextId hlook
    simp only [constructTimes, hcall]
    obtain ⟨ids, st2, hrec⟩ :
        ∃ ids st2, constructTimes cls args next k
          { cache := (fpOf cls args next, st.nextId) :: st.cache,
            nextId := st.nextId + 1,
            initRuns := st.initRuns + 1 } = Except.ok (ids, st2) := by
      cases hrec : constructTimes cls args next k
          { cache := (fpOf cls args next, st.nextId) :: st.cache,
            nextId := st.nextId + 1,
            initRuns := st.initRuns + 1 } with
      | error e => rw [hrec] at hrest; simp [idsOf] at hrest
      | ok p => exact ⟨p.1, p.2, rfl⟩
    rw [hrec] at hrest ⊢
    simp [idsOf] at hrest
    simp [idsOf, hfid, hrest, List.replicate_succ]

/-- Witness for C1: three repeated constructions of a concrete argument-free
node all return instance id `0`, the instance the first call cached. -/
theorem interning_identity_witness :
    (⟨"((),())", []⟩ : CArgs).hashable = true ∧
      idsOf (constructTimes "tests.MockValidator" ⟨"((),())", []⟩ Option.none 3
        ⟨[], 0, 0⟩) = Option.some (List.replicate 3
          (firstId "tests.MockValidator" ⟨"((),())", []⟩ Option.none
            ⟨[], 0, 0⟩)) :=
  ⟨by decide,
    interning_identity "tests.MockValidator" ⟨"((),())", []⟩ Option.none
      ⟨[], 0, 0⟩ 2 (by decide)⟩

/-! ## C4 — constructor body on cache hits -/

/-- Counterexample to C4.  Concrete scenario: from an empty cache, a first
construction of an argument-free node caches instance `0` with one
`__init__` run; a second, identical construction is a cache hit
(`lookupCache` finds the fingerprint) and returns the very same instance `0`,
yet the `__init__`-run counter rises from `1` to `2`: Python's call protocol
re-invokes the subclass constructor body on the cached instance, so
constructor side effects do occur a second time, contradicting the claim
that on a cache hit "the constructor body does not execute again". -/
theorem init_reruns_on_cache_hit_counterexample :
    constructCall "tests.MockValidator" ⟨"((),())", []⟩ Option.none
        ⟨[], 0, 0⟩ =
      Except.ok (0, ⟨[(CChain.last "tests.MockValidator" ⟨"((),())", []⟩, 0)],
        1, 1⟩) ∧
    lookupCache (CChain.last "tests.MockValidator" ⟨"((),())", []⟩)
        [(CChain.last "tests.MockValidator" ⟨"((),())", []⟩, 0)] =
      Option.some 0 ∧
    constructCall "tests.MockValidator" ⟨"((),())", []⟩ Option.none
        ⟨[(CChain.last "tests.MockValidator" ⟨"((),())", []⟩, 0)], 1, 1⟩ =
      Except.ok (0, ⟨[(CChain.last "tests.MockValidator" ⟨"((),())", []⟩, 0)],
        1, 2⟩) :=
  ⟨rfl, rfl, rfl⟩

/-- C4 as amended.  On a cache hit (the fingerprint of class, canonicalized
arguments and continuation is already in `_validator_cache`), the
construction call returns the pre-existing instance and `__new__` performs
no allocation and no cache write (cache and fresh-id counter unchanged), but
Python still re-invokes the patched subclass `__init__` on the returned
instance, so the user constructor body executes exactly once more per call. -/
theorem cache_hit_returns_cached_but_reruns_init (cls : String) (args : CArgs)
    (next : Option CChain) (st : InternState) (i : Nat)
    (h : args.hashable = true)
    (hl : lookupCache (fpOf cls args next) st.cache = Option.some i) :
    constructCall cls args next st =
      Except.ok (i, ⟨st.cache, st.nextId, st.initRuns + 1⟩) :=
  constructCall_hit cls args next st i h hl

/-- Witness for the amended C4: the concrete cache-hit call of the
counterexample, obtained through the general theorem. -/
theorem cache_hit_returns_cached_but_reruns_init_witness :
    constructCall "tests.MockValidator" ⟨"((),())", []⟩ Option.none
        ⟨[(CChain.last "tests.MockValidator" ⟨"((),())", []⟩, 0)], 1, 1⟩ =
      Except.ok (0,
        ⟨[(CChain.last "tests.MockValidator" ⟨"((),())", []⟩, 0)], 1, 2⟩) :=
  cache_hit_returns_cached_but_reruns_init "tests.MockValidator"
    ⟨"((),())", []⟩ Option.none
    ⟨[(CChain.last "tests.MockValidator" ⟨"((),())", []⟩, 0)], 1, 1⟩ 0
    (by decide) (by decide)

/-! ## C7 — unhashable constructor arguments -/

/-- Counterexample to C7.  Constructing a node whose arguments contain an
unhashable leaf fails with the bare Python `TypeError` that `hash()` raises
inside `_create_hash` — `validator.py:_create_hash` has no `try`/`except`
and no dedicated `UnhashableArgumentError` exists anywhere in the live code,
so the claim's "never with a bare TypeError" is false. -/
theorem unhashable_raises_bare_typeerror_counterexample :
    constructCall "tests.MockValidator" ⟨"((obj,),())", [PyLeaf.obj 0 false]⟩
        Option.none ⟨[], 0, 0⟩ = Except.error BuildErr.typeError ∧
    BuildErr.isBareTypeError BuildErr.typeError = true :=
  ⟨rfl, rfl⟩

/-- C7 as amended.  Construction with an unhashable argument leaf does fail
at chain-build time — inside `_create_hash`, before any instance is
allocated, cached, or its `__init__` run, so the failure is never deferred
to execution time — but it surfaces as the bare Python `TypeError`
propagating out of `hash()`, not as a dedicated `UnhashableArgumentError`
(no such construction-error kind exists in `validator.py`). -/
theorem unhashable_fails_at_build_time_with_bare_typeerror (cls : String)
    (args : CArgs) (next : Option CChain) (st : InternState)
    (h : args.hashable = false) :
    constructCall cls args next st = Except.error BuildErr.typeError := by
  simp [constructCall, validatorNew, createHash, h]

/-- Witness for the amended C7: the concrete unhashable-leaf construction. -/
theorem unhashable_fails_at_build_time_witness :
    (⟨"((obj,),())", [PyLeaf.obj 0 false]⟩ : CArgs).hashable = false ∧
      constructCall "tests.MockValidator"
        ⟨"((obj,),())", [PyLeaf.obj 0 false]⟩ Option.none ⟨[], 0, 0⟩ =
        Except.error BuildErr.typeError :=
  ⟨by decide,
    unhashable_fails_at_build_time_with_bare_typeerror "tests.MockValidator"
      ⟨"((obj,),())", [PyLeaf.obj 0 false]⟩ Option.none ⟨[], 0, 0⟩ (by decide)⟩

/-! ## C8 — append associativity -/

theorem walk_append (f : String → CArgs → α) :
    ∀ a b : CChain, (a.append b).walk f = a.walk f ++ b.walk f := by
  intro a b
  induction a with
  | last c x => simp [CChain.append, CChain.walk]
  | cons c x n ih => simp [CChain.append, CChain.walk, ih]

/-- C8.  Append associativity, observationally: walking `(A & B) & C`
(head to tail) yields exactly the same ordered sequence of node type-tags
(concrete class identities) as walking `A & (B & C)`. -/
theorem append_assoc_type_tags (a b c : CChain) :
    ((a.chainAnd b).chainAnd c).typeTags =
      (a.chainAnd (b.chainAnd c)).typeTags := by
  simp [CChain.chainAnd, CChain.typeTags, walk_append, List.append_assoc]

/-! ## Concrete nodes used in scenario theorems

These mirror the mock validators of `src/tests/validator.py`
(`SuppressError`, `ThrowError`, `MockValidatorWithKwargs`, ...): each one
fixes the four behaviors of one `Validator` subclass. -/

/-- A node that always passes but whose `chain_predicate` returns `False`
(`tests.validator.SuppressError`). -/
def suppressNode : NodeBehavior :=
  { cls := "tests.SuppressError"
    predicate := fun _ _ => Except.ok (PyVal.bool true)
    create_exception := fun _ _ => Except.ok (PyVal.exc 0)
    chain_predicate := fun _ => Except.ok (PyVal.bool false)
    handle_exception := fun e _ => Except.ok (PyVal.exc e) }

/-- A node whose `predicate` always raises (`tests.validator.ThrowError`). -/
def throwNode : NodeBehavior :=
  { cls := "tests.ThrowError"
    predicate := fun _ _ => Except.error "Exception"
    create_exception := fun _ _ => Except.ok (PyVal.exc 1)
    chain_predicate := fun _ => Except.ok (PyVal.bool true)
    handle_exception := fun e _ => Except.ok (PyVal.exc e) }

/-- A node whose `predicate` requires the context key `"batch_size"`: called
without it, Python raises `TypeError` for the missing required keyword
argument before the body runs (compare `BatchShape` in `main.py`). -/
def batchShapeNode : NodeBehavior :=
  { cls := "tests.BatchShape"
    predicate := fun x ctx =>
      match ctxLookup "batch_size" ctx with
      | Option.some (PyLeaf.int b) => Except.ok (PyVal.bool (x = b))
      | Option.some _ => Except.ok (PyVal.bool false)
      | Option.none => Except.error
          "TypeError: predicate() missing 1 required keyword-only argument: batch_size"
    create_exception := fun _ _ => Except.ok (PyVal.exc 2)
    chain_predicate := fun _ => Except.ok (PyVal.bool true)
    handle_exception := fun e _ => Except.ok (PyVal.exc e) }

/-- A node whose `predicate` returns the Python integer `1` instead of a
boolean. -/
def intOneNode : NodeBehavior :=
  { cls := "tests.IntOnePredicate"
    predicate := fun _ _ => Except.ok (PyVal.int 1)
    create_exception := fun _ _ => Except.ok (PyVal.exc 3)
    chain_predicate := fun _ => Except.ok (PyVal.bool true)
    handle_exception := fun e _ => Except.ok (PyVal.exc e) }

/-- A node that always fails validation, producing exception value `7`, with
the default identity handler. -/
def failNode : NodeBehavior :=
  { cls := "tests.FailNode"
    predicate := fun _ _ => Except.ok (PyVal.bool false)
    create_exception := fun _ _ => Except.ok (PyVal.exc 7)
    chain_predicate := fun _ => Except.ok (PyVal.bool true)
    handle_exception := fun e _ => Except.ok (PyVal.exc e) }

/-- A node that always passes, with default behaviors otherwise. -/
def passNode : NodeBehavior :=
  { cls := "tests.PassNode"
    predicate := fun _ _ => Except.ok (PyVal.bool true)
    create_exception := fun _ _ => Except.ok (PyVal.exc 8)
    chain_predicate := fun _ => Except.ok (PyVal.bool true)
    handle_exception := fun e _ => Except.ok (PyVal.exc e) }

/-! ## C2 — chain-predicate short-circuit -/

/-- C2, evaluated on the code at the failing input.  Left conjunct: under
`validator.py` as written, running the two-node chain
`SuppressError & ThrowError` (whose head's `chain_predicate` is `False` and
whose second node's `predicate` always throws) *does* invoke `ThrowError`'s
`predicate` — the trace records `predicateCalled "tests.ThrowError"` — and
the run terminates in `SubclassDidNotRunException`, not success: the early
`return self.next_validator._validate(...)` at `validator.py:766` makes the
chain-predicate logic at lines 767–774 unreachable.  Right conjunct: under
the intended semantics (those very unreachable lines, the class docstring,
`core.py:_passed_branch`, and the repo's own `test_supression_predicate`),
the same input consults `chain_predicate`, never touches `ThrowError`, and
terminates as a success returning the operand. -/
theorem chain_predicate_short_circuit_eval :
    validatorCall (BChain.cons suppressNode (BChain.last throwNode)) 3 [] =
      ([Event.predicateCalled "tests.SuppressError" 3,
        Event.predicateCalled "tests.ThrowError" 3],
        Except.error (VErr.didNotRun "tests.ThrowError" "predicate")) ∧
    validatorCallIntended
        (BChain.cons suppressNode (BChain.last throwNode)) 3 [] =
      ([Event.predicateCalled "tests.SuppressError" 3,
        Event.chainPredicateCalled "tests.SuppressError",
        Event.basePassed 3],
        Except.ok 3) :=
  ⟨rfl, rfl⟩

/-! ## Supporting lemma: a predicate-level engine error stops the run at the
head node -/

theorem validateChain_pred_error (c : BChain) (cb : Callback) (x : Operand)
    (ctx : Ctx) (w : VErr)
    (hex : executePredicate c.head x ctx = Except.error w) :
    validateChain c cb x ctx =
      ([Event.predicateCalled c.head.cls x], Except.error w) := by
  cases c with
  | last n =>
    simp only [BChain.head] at hex
    simp [validateChain, hex, BChain.head]
  | cons n next =>
    simp only [BChain.head] at hex
    simp [validateChain, hex, BChain.head]

/-! ## C5 — behavior-contract violation on wrong return type -/

/-- C5.  For every chain whose head node's `predicate` returns a non-boolean
value `v` (such as the integer `1`) on the given operand and context, the run
terminates with `SubclassReturnedWrongTypeException` naming that node's
class and the behavior `predicate` (required `bool`, observed `type(v)`),
and the trace shows that no `create_exception` (failure-factory) behavior
ever ran — so no validation-failure value is produced for that operand. -/
theorem contract_error_on_nonbool_predicate (c : BChain) (x : Operand)
    (ctx : Ctx) (v : PyVal)
    (hp : c.head.predicate x ctx = Except.ok v)
    (hv : ∀ b, v ≠ PyVal.bool b) :
    validatorCall c x ctx = ([Event.predicateCalled c.head.cls x],
      Except.error (VErr.wrongType c.head.cls "predicate" "bool" v.kind)) := by
  have hex : executePredicate c.head x ctx =
      Except.error (VErr.wrongType c.head.cls "predicate" "bool" v.kind) := by
    cases v with
    | bool b => exact absurd rfl (hv b)
    | int n => simp [executePredicate, hp, PyVal.kind]
    | exc e => simp [executePredicate, hp, PyVal.kind]
    | noneVal => simp [executePredicate, hp, PyVal.kind]
  exact validateChain_pred_error c rootCallback x ctx _ hex

/-- Witness for C5: the concrete node whose `predicate` returns the integer
`1` yields `SubclassReturnedWrongTypeException("tests.IntOnePredicate",
"predicate", required "bool", observed "int")`, and its trace holds no
`createExceptionCalled` event. -/
theorem contract_error_on_nonbool_predicate_witness :
    validatorCall (BChain.last intOneNode) 3 [] =
      ([Event.predicateCalled "tests.IntOnePredicate" 3],
        Except.error (VErr.wrongType "tests.IntOnePredicate" "predicate"
          "bool" "int")) :=
  contract_error_on_nonbool_predicate (BChain.last intOneNode) 3 []
    (PyVal.int 1) rfl (by decide)

/-! ## C6 — missing context key -/

/-- Does the run end in an error of the `ValidatorException` family (the
engine's behavior-contract errors — `SubclassDidNotRunException` or
`SubclassReturnedWrongTypeException`, the only error kinds `validator.py`'s
engine can produce)? -/
def isValidatorExceptionResult : List Event × Except VErr Operand → Bool
  | (_, Except.error _) => true
  | (_, Except.ok _) => false

/-- Counterexample to C6.  Running the node that requires context key
`"batch_size"` with an empty context fails with
`SubclassDidNotRunException("tests.BatchShape", "predicate")` — an error of
the `ValidatorException` behavior-contract family, whose payload names only
the node's class and the behavior and identifies no missing key.  The claim
required a `MissingContextKeyError` identifying the key and explicitly *not*
a behavior-contract error; no `MissingContextKeyError` exists anywhere in
the source, and the blanket `except Exception` in `_execute_predicate`
maps the missing-keyword `TypeError` to `SubclassDidNotRunException` (whose
own message text even lists "you did not provide needed kwargs" as a
cause). -/
theorem missing_context_key_counterexample :
    validatorCall (BChain.last batchShapeNode) 3 [] =
      ([Event.predicateCalled "tests.BatchShape" 3],
        Except.error (VErr.didNotRun "tests.BatchShape" "predicate")) ∧
    isValidatorExceptionResult (validatorCall (BChain.last batchShapeNode) 3 [])
      = true :=
  ⟨rfl, rfl⟩

/-- C6 as amended.  For every chain whose head node's `predicate` raises when
invoked (as Python does, with a `TypeError`, when a declared required context
key is absent from the supplied kwargs), the run fails with
`SubclassDidNotRunException` naming that node's class and the behavior
`predicate` — a `ValidatorException`-family (behavior-contract) error that
does not identify the missing key; no dedicated `MissingContextKeyError`
exists in the code. -/
theorem missing_context_key_gives_didNotRun (c : BChain) (x : Operand)
    (ctx : Ctx) (msg : String)
    (hp : c.head.predicate x ctx = Except.error msg) :
    validatorCall c x ctx = ([Event.predicateCalled c.head.cls x],
      Except.error (VErr.didNotRun c.head.cls "predicate")) := by
  have hex : executePredicate c.head x ctx =
      Except.error (VErr.didNotRun c.head.cls "predicate") := by
    simp [executePredicate, hp]
  exact validateChain_pred_error c rootCallback x ctx _ hex

/-- Witness for the amended C6: the concrete `"batch_size"`-requiring node
run with an empty context. -/
theorem missing_context_key_gives_didNotRun_witness :
    validatorCall (BChain.last batchShapeNode) 3 [] =
      ([Event.predicateCalled "tests.BatchShape" 3],
        Except.error (VErr.didNotRun "tests.BatchShape" "predicate")) :=
  missing_context_key_gives_didNotRun (BChain.last batchShapeNode) 3 []
    "TypeError: predicate() missing 1 required keyword-only argument: batch_size"
    rfl

/-! ## C3 — failure propagation order -/

/-- C3.  For every three-node chain `[A, B, C]` run on an operand for which
`A`'s and `B`'s predicates pass and `C`'s predicate fails, the
`handle_exception` behaviors run exactly in the order `C`, then `B`, then
`A` (innermost failure outward): `C`'s handler receives the exception `e0`
that `C.create_exception` produced, `B`'s receives what `C`'s returned,
`A`'s receives what `B`'s returned, and the root callback finally receives
what `A`'s returned; the whole trace is exactly as listed and the run
returns the operand. -/
theorem failure_propagation_order (A B C : NodeBehavior) (x : Operand)
    (ctx : Ctx) (e0 : Nat) (ha hb hc : Nat → Nat)
    (hAp : A.predicate x ctx = Except.ok (PyVal.bool true))
    (hBp : B.predicate x ctx = Except.ok (PyVal.bool true))
    (hCp : C.predicate x ctx = Except.ok (PyVal.bool false))
    (hCe : C.create_exception x ctx = Except.ok (PyVal.exc e0))
    (hCh : ∀ e, C.handle_exception e ctx = Except.ok (PyVal.exc (hc e)))
    (hBh : ∀ e, B.handle_exception e ctx = Except.ok (PyVal.exc (hb e)))
    (hAh : ∀ e, A.handle_exception e ctx = Except.ok (PyVal.exc (ha e))) :
    validatorCall (BChain.cons A (BChain.cons B (BChain.last C))) x ctx =
      ([Event.predicateCalled A.cls x, Event.predicateCalled B.cls x,
        Event.predicateCalled C.cls x, Event.createExceptionCalled C.cls,
        Event.handleCalled C.cls e0, Event.handleCalled B.cls (hc e0),
        Event.handleCalled A.cls (hb (hc e0)),
        Event.rootCallbackCalled (ha (hb (hc e0)))],
        Except.ok x) := by
  simp [validatorCall, validateChain, executePredicate, hAp, hBp, hCp,
    baseCaseFailed, executeCreateException, hCe, wrapCallback, executeHandle,
    hCh, hBh, hAh, rootCallback]

/-- A node for the C3 witness: passes, handler adds `100`. -/
def handlerNodeA : NodeBehavior :=
  { cls := "tests.HandlerA"
    predicate := fun _ _ => Except.ok (PyVal.bool true)
    create_exception := fun _ _ => Except.ok (PyVal.exc 20)
    chain_predicate := fun _ => Except.ok (PyVal.bool true)
    handle_exception := fun e _ => Except.ok (PyVal.exc (e + 100)) }

/-- A node for the C3 witness: passes, handler adds `10`. -/
def handlerNodeB : NodeBehavior :=
  { cls := "tests.HandlerB"
    predicate := fun _ _ => Except.ok (PyVal.bool true)
    create_exception := fun _ _ => Except.ok (PyVal.exc 21)
    chain_predicate := fun _ => Except.ok (PyVal.bool true)
    handle_exception := fun e _ => Except.ok (PyVal.exc (e + 10)) }

/-- A node for the C3 witness: fails with exception value `5`, handler adds
`1`. -/
def failHandlerNodeC : NodeBehavior :=
  { cls := "tests.FailC"
    predicate := fun _ _ => Except.ok (PyVal.bool false)
    create_exception := fun _ _ => Except.ok (PyVal.exc 5)
    chain_predicate := fun _ => Except.ok (PyVal.bool true)
    handle_exception := fun e _ => Except.ok (PyVal.exc (e + 1)) }

/-- Witness for C3: with `C` producing `5` and handlers adding `1`, `10` and
`100`, the handlers run in order `C` (receives `5`), `B` (receives `6`),
`A` (receives `16`), and the root callback receives `116`. -/
theorem failure_propagation_order_witness :
    validatorCall (BChain.cons handlerNodeA (BChain.cons handlerNodeB
        (BChain.last failHandlerNodeC))) 4 [] =
      ([Event.predicateCalled "tests.HandlerA" 4,
        Event.predicateCalled "tests.HandlerB" 4,
        Event.predicateCalled "tests.FailC" 4,
        Event.createExceptionCalled "tests.FailC",
        Event.handleCalled "tests.FailC" 5,
        Event.handleCalled "tests.HandlerB" 6,
        Event.handleCalled "tests.HandlerA" 16,
        Event.rootCallbackCalled 116],
        Except.ok 4) :=
  failure_propagation_order handlerNodeA handlerNodeB failHandlerNodeC 4 [] 5
    (fun e => e + 100) (fun e => e + 10) (fun e => e + 1)
    rfl rfl rfl rfl (fun _ => rfl) (fun _ => rfl) (fun _ => rfl)

/-! ## C9 — terminal results and the ContextState sinks -/

/-- A probe exception sink: if it were ever invoked, the trace would show
`exceptionSinkCalled`. -/
def exceptionSinkProbe : ExceptionSink := fun e _ => [Event.exceptionSinkCalled e]

/-- A probe success sink: if it were ever invoked, the trace would show
`successSinkCalled`. -/
def successSinkProbe : SuccessSink := fun x _ => [Event.successSinkCalled x]

/-- C9, evaluated on the code at the failing input.  Registration through
`state.set_exception_callback` / `state.set_success_callback` does store the
sinks (first two conjuncts), but execution never consults them:
`Validator.__call__` hard-codes `lambda exception, **k: None` as the final
exception callback (it reads nothing from `state.py`, which `validator.py`
does not even import), and `_base_case_passed` invokes no success callback.
Concretely, a failing one-node run delivers the final error (`7`, after the
outermost `handle_exception`) to the no-op root lambda and its trace
contains no sink invocation, and a fully successful run ends in
`_base_case_passed` without invoking any success sink. -/
theorem sinks_never_invoked_eval :
    (setExceptionCallback (Option.some exceptionSinkProbe)
        initialStateData).final_callback = Option.some exceptionSinkProbe ∧
    (setSuccessCallback (Option.some successSinkProbe)
        initialStateData).success_callback = Option.some successSinkProbe ∧
    validatorCall (BChain.last failNode) 3 [] =
      ([Event.predicateCalled "tests.FailNode" 3,
        Event.createExceptionCalled "tests.FailNode",
        Event.handleCalled "tests.FailNode" 7,
        Event.rootCallbackCalled 7], Except.ok 3) ∧
    (∀ e, Event.exceptionSinkCalled e ∉
      (validatorCall (BChain.last failNode) 3 []).1) ∧
    validatorCall (BChain.last passNode) 3 [] =
      ([Event.predicateCalled "tests.PassNode" 3, Event.basePassed 3],
        Except.ok 3) ∧
    (∀ y, Event.successSinkCalled y ∉
      (validatorCall (BChain.last passNode) 3 []).1) := by
  refine ⟨rfl, rfl, rfl, ?_, rfl, ?_⟩
  · intro e
    rw [show (validatorCall (BChain.last failNode) 3 []).1 =
      [Event.predicateCalled "tests.FailNode" 3,
        Event.createExceptionCalled "tests.FailNode",
        Event.handleCalled "tests.FailNode" 7,
        Event.rootCallbackCalled 7] from rfl]
    simp
  · intro y
    rw [show (validatorCall (BChain.last passNode) 3 []).1 =
      [Event.predicateCalled "tests.PassNode" 3, Event.basePassed 3]
      from rfl]
    simp

/-! ## C10 — the call returns the operand -/

/-- A node's behaviors are well-typed at an operand and context: the
predicate returns a boolean, the failure factory returns an exception value,
and the handler always returns an exception value. -/
def WellBehavedAt (n : NodeBehavior) (x : Operand) (ctx : Ctx) : Prop :=
  (∃ b, n.predicate x ctx = Except.ok (PyVal.bool b)) ∧
  (∃ e, n.create_exception x ctx = Except.ok (PyVal.exc e)) ∧
  (∀ e, ∃ e1, n.handle_exception e ctx = Except.ok (PyVal.exc e1))

/-- A callback that never raises an engine error. -/
def SafeCallback (cb : Callback) (ctx : Ctx) : Prop :=
  ∀ e, (cb e ctx).2 = Except.ok ()

theorem rootCallback_safe (ctx : Ctx) : SafeCallback rootCallback ctx :=
  fun _ => rfl

theorem wrapCallback_safe (n : NodeBehavior) (cb : Callback) (ctx : Ctx)
    (hn : ∀ e, ∃ e1, n.handle_exception e ctx = Except.ok (PyVal.exc e1))
    (hcb : SafeCallback cb ctx) : SafeCallback (wrapCallback n cb) ctx := by
  intro e
  obtain ⟨e1, he⟩ := hn e
  simp [wrapCallback, executeHandle, he, hcb e1]

theorem baseCaseFailed_snd (n : NodeBehavior) (cb : Callback) (x : Operand)
    (ctx : Ctx)
    (hce : ∃ e, n.create_exception x ctx = Except.ok (PyVal.exc e))
    (hcb : SafeCallback cb ctx) :
    (baseCaseFailed n cb x ctx).2 = Except.ok x := by
  obtain ⟨e0, he⟩ := hce
  simp [baseCaseFailed, executeCreateException, he, hcb e0]

theorem validateChain_wellBehaved (x : Operand) (ctx : Ctx) :
    ∀ (c : BChain) (cb : Callback),
      (∀ n ∈ c.nodes, WellBehavedAt n x ctx) → SafeCallback cb ctx →
      (validateChain c cb x ctx).2 = Except.ok x := by
  intro c
  induction c with
  | last n =>
    intro cb hwb hcb
    obtain ⟨⟨b, hp⟩, hce, hh⟩ := hwb n (by simp [BChain.nodes])
    have hsafe := wrapCallback_safe n cb ctx hh hcb
    cases b with
    | true => simp [validateChain, executePredicate, hp]
    | false =>
      simp [validateChain, executePredicate, hp]
      exact baseCaseFailed_snd n (wrapCallback n cb) x ctx hce hsafe
  | cons n next ih =>
    intro cb hwb hcb
    obtain ⟨⟨b, hp⟩, hce, hh⟩ := hwb n (by simp [BChain.nodes])
    have hsafe := wrapCallback_safe n cb ctx hh hcb
    have hnext : ∀ m ∈ next.nodes, WellBehavedAt m x ctx := by
      intro m hm
      exact hwb m (by simp [BChain.nodes, hm])
    cases b with
    | true =>
      simp [validateChain, executePredicate, hp]
      exact ih (wrapCallback n cb) hnext hsafe
    | false =>
      simp [validateChain, executePredicate, hp]
      exact baseCaseFailed_snd n (wrapCallback n cb) x ctx hce hsafe

/-- C10.  For every chain of well-typed nodes and every operand and context,
`Validator.__call__` returns the operand value itself — both when every
predicate passes and when predicates fail along the way — never `None` and
never an exception object; pass/fail is conveyed only through the callback
side-effect path (the event trace). -/
theorem call_returns_operand (c : BChain) (x : Operand) (ctx : Ctx)
    (h : ∀ n ∈ c.nodes, WellBehavedAt n x ctx) :
    (validatorCall c x ctx).2 = Except.ok x :=
  validateChain_wellBehaved x ctx c rootCallback h (rootCallback_safe ctx)

/-- Witness for C10: a two-node chain whose first node passes and whose
second fails still returns the operand `5`. -/
theorem call_returns_operand_witness :
    (validatorCall (BChain.cons passNode (BChain.last failNode)) 5 []).2 =
      Except.ok 5 :=
  call_returns_operand (BChain.cons passNode (BChain.last failNode)) 5 []
    (by
      intro n hn
      simp [BChain.nodes] at hn
      rcases hn with h | h <;> subst h
      · exact ⟨⟨true, rfl⟩, ⟨8, rfl⟩, fun e => ⟨e, rfl⟩⟩
      · exact ⟨⟨false, rfl⟩, ⟨7, rfl⟩, fun e => ⟨e, rfl⟩⟩)
